import Mathlib

/-
Verification development for the SalesPro synchronization/reconciliation layer.

The definitions below are a shallow embedding of the TypeScript sources:
  src/services/backendService.ts   (class BackendService)
  src/services/airtableService.ts  (class AirtableService)
  src/unnamed/part_000             (an alternative BackendService revision)

Conventions of the embedding:
  * JavaScript `x || d` defaulting on strings is `orDefault` (absent or "" falls
    back to `d`); on numbers it is `numOr` (absent/NaN or 0 falls back).
  * Remote HTTP requests are modelled by their outcome: `Except Unit R` where
    `.error` stands for any thrown failure (network, authorization,
    missing table) and `.ok` for a parsed response body.
  * `localStorage` (`Storage` in ./storage, not part of the sources) is
    modelled from the spec: a keyed record `LocalStore`; `get key default`
    is `Option.getD`, `set` is a field update.  The `allUsers` key always
    reads with default `[]`, so it is carried as a plain list.
  * Millisecond wall-clock timestamps are `Int`; the JavaScript truthiness
    test on a numeric field is `≠ 0`.
-/

set_option maxHeartbeats 1000000

namespace SalesPro

/-- JS `s || d` for an optional string field: `undefined`, `null` and `""` are
falsy and fall through to the default. -/
def orDefault : Option String → String → String
  | none, d => d
  | some s, d => if s = "" then d else s

/-- JS `Number(x) || d` for an optional numeric field: absent / non-numeric
(`NaN`, modelled as `none`) and `0` are falsy and fall through to `d`. -/
def numOr : Option Int → Int → Int
  | none, d => d
  | some n, d => if n = 0 then d else n

/-- JS `a || b` on two plain strings (`""` is falsy). -/
def jsOrS (a b : String) : String :=
  if a = "" then b else a

/-- One Airtable attachment object (only its `url` matters to the sources). -/
structure Attachment where
  url : Option String
  deriving DecidableEq, Repr

/-- Notification preference block of a user record
(src/services/airtableService.ts, loadUserProgress mapping). -/
structure NotificationPrefs where
  pushEnabled : Bool
  telegramSync : Bool
  deadlineReminders : Bool
  chatNotifications : Bool
  deriving DecidableEq, Repr

/-- The mutable per-user record (`UserProgress` in ../types, reconstructed from
its uses in the two services; the opaque payload fields are carried as plain
strings/lists of strings, which is all the synchronization layer looks at). -/
structure UserProgress where
  id : String
  telegramId : String
  name : String
  role : String
  isAuthenticated : Bool
  xp : Int
  level : Int
  completedLessonIds : List String
  submittedHomeworks : List String
  chatHistory : List String
  notebook : List String
  habits : List String
  goals : List String
  theme : String
  notifications : NotificationPrefs
  airtableRecordId : Option String
  lastSyncTimestamp : Int
  registrationDate : String
  deriving DecidableEq, Repr

/-- Assembled lesson (`Lesson` in ../types), as produced by the airtable
service mappers. -/
structure Lesson where
  id : String
  title : String
  description : String
  content : String
  xpReward : Int
  homeworkType : String
  homeworkTask : String
  aiGradingInstruction : String
  videoUrl : String
  deriving DecidableEq, Repr

/-- Assembled module (`Module` in ../types) as built by
`AirtableService.fetchModules`. -/
structure CourseModule where
  id : String
  title : String
  description : String
  category : String
  minLevel : Int
  imageUrl : String
  videoUrl : String
  pdfUrl : String
  lessons : List Lesson
  deriving DecidableEq, Repr

/-- Assembled material (`Material` in ../types). -/
structure Material where
  id : String
  title : String
  description : String
  type : String
  url : String
  deriving DecidableEq, Repr

/-- Assembled stream (`Stream` in ../types). -/
structure StreamItem where
  id : String
  title : String
  date : String
  youtubeUrl : String
  status : String
  deriving DecidableEq, Repr

/-- Opaque calendar-event payload (its shape never matters to the sync layer). -/
structure CalendarEvent where
  payload : String
  deriving DecidableEq, Repr

/-- Opaque arena-scenario payload. -/
structure ArenaScenario where
  payload : String
  deriving DecidableEq, Repr

/-- The `fields` object of one Airtable lesson row, with exactly the keys the
sources read (`id`, `title`, …, `Module` the multi-valued module link). -/
structure LessonFields where
  id : Option String
  title : Option String
  description : Option String
  content : Option String
  xpReward : Option Int
  homeworkType : Option String
  homeworkTask : Option String
  aiGradingInstruction : Option String
  videoUrl : Option String
  moduleLinks : List String
  deriving DecidableEq, Repr

/-- One Airtable lesson row: backend-internal record id plus fields. -/
structure LessonRecord where
  recId : String
  fields : LessonFields
  deriving DecidableEq, Repr

/-- The `fields` object of one Airtable module row (`Lessons 2` is the
secondary multi-valued lesson link consulted as a fallback). -/
structure ModuleFields where
  id : Option String
  title : Option String
  description : Option String
  category : Option String
  minLevel : Option Int
  imageUrl : Option String
  videoUrl : Option String
  lessons2 : List String
  image : Option (List Attachment)
  video : Option (List Attachment)
  deriving DecidableEq, Repr

/-- One Airtable module row. -/
structure ModuleRecord where
  recId : String
  fields : ModuleFields
  deriving DecidableEq, Repr

/-- The keyed durable cache.  Modelled from the spec: `LocalStore` offers
`get key default` / `set key value`; keys that some claim distinguishes
between "absent" and "stored empty" are carried as `Option`, while `allUsers`
(always read with default `[]`) is a plain list. -/
structure LocalStore where
  progress : Option UserProgress
  allUsers : List UserProgress
  courseModules : Option (List CourseModule)
  materials : Option (List Material)
  streams : Option (List StreamItem)
  events : Option (List CalendarEvent)
  scenarios : Option (List ArenaScenario)
  deriving DecidableEq, Repr

/-- The built-in default data sets (`COURSE_MODULES`, `MOCK_MATERIALS`,
`MOCK_STREAMS`, `MOCK_EVENTS`, `SCENARIOS` from ../constants and
../components/SalesArena, which are outside the given sources), carried as a
parameter record. -/
structure BuiltinDefaults where
  COURSE_MODULES : List CourseModule
  MOCK_MATERIALS : List Material
  MOCK_STREAMS : List StreamItem
  MOCK_EVENTS : List CalendarEvent
  SCENARIOS : List ArenaScenario
  deriving DecidableEq, Repr

/-! ### AirtableService (src/services/airtableService.ts) -/

/-- `mapCategory` (airtableService.ts lines 376-385): explicit lookup table
from the backend category labels to the closed application set, defaulting to
`GENERAL` for absent/unmapped values. -/
def mapCategory : Option String → String
  | some "Модуль 1" => "GENERAL"
  | some "Модуль 2" => "SALES"
  | some "Модуль 3" => "PSYCHOLOGY"
  | some "Модуль 4" => "TACTICS"
  | some "Модуль 5" => "GENERAL"
  | _ => "GENERAL"

/-- `getImageFromAttachments` / `getVideoFromAttachments` (lines 387-395):
first attachment url, or `""` when the field is absent or empty. -/
def getFromAttachments : Option (List Attachment) → String
  | none => ""
  | some [] => ""
  | some (a :: _) => a.url.getD ""

/-- The lesson mapper of the main path of `fetchModules` (lines 126-136):
field-by-field with the `||` defaults of the source (title default
`Урок без названия`, xpReward default 100, …). -/
def toLesson (r : LessonRecord) : Lesson where
  id := orDefault r.fields.id r.recId
  title := orDefault r.fields.title "Урок без названия"
  description := orDefault r.fields.description ""
  content := orDefault r.fields.content ""
  xpReward := numOr r.fields.xpReward 100
  homeworkType := orDefault r.fields.homeworkType "TEXT"
  homeworkTask := orDefault r.fields.homeworkTask ""
  aiGradingInstruction := orDefault r.fields.aiGradingInstruction ""
  videoUrl := orDefault r.fields.videoUrl ""

/-- The lesson mapper of the `Lessons 2` fallback inside `fetchModules`
(lines 166-181) and of `fetchLessons` (lines 224-234): identical shape but
title default `Урок`; `lid` is the linked record id the row was found by. -/
def toLessonShort (lid : String) (f : LessonFields) : Lesson where
  id := orDefault f.id lid
  title := orDefault f.title "Урок"
  description := orDefault f.description ""
  content := orDefault f.content ""
  xpReward := numOr f.xpReward 100
  homeworkType := orDefault f.homeworkType "TEXT"
  homeworkTask := orDefault f.homeworkTask ""
  aiGradingInstruction := orDefault f.aiGradingInstruction ""
  videoUrl := orDefault f.videoUrl ""

/-- `fetchModules` step 2 (lines 121-146): scan every lesson row and append
its mapped lesson to the bucket of every module record id in its
multi-valued `Module` link field.  The JS `Map` is modelled as the function
from module record ids to their buckets. -/
def buildLessonsMap (lrs : List LessonRecord) : String → List Lesson :=
  lrs.foldl
    (fun m r =>
      r.fields.moduleLinks.foldl
        (fun m2 mid => fun k => if k = mid then m2 k ++ [toLesson r] else m2 k)
        m)
    (fun _ => [])

/-- `fetchModules` lines 159-184: resolve a module row's lessons through the
primary `Module`-link bucket, falling back to the `Lessons 2` field (resolving
those linked lesson-row ids directly against the full lesson row set) only
when the bucket is empty. -/
def resolveModuleLessons (lrs : List LessonRecord) (lmap : String → List Lesson)
    (r : ModuleRecord) : List Lesson :=
  let viaLink := lmap r.recId
  if viaLink.length = 0 then
    r.fields.lessons2.foldl
      (fun acc lid =>
        match lrs.find? (fun l => l.recId = lid) with
        | some lr => acc ++ [toLessonShort lid lr.fields]
        | none => acc)
      []
  else viaLink

/-- `fetchModules` lines 186-196: the module object built from one module row. -/
def assembleModule (lrs : List LessonRecord) (lmap : String → List Lesson)
    (r : ModuleRecord) : CourseModule where
  id := orDefault r.fields.id r.recId
  title := orDefault r.fields.title "Модуль"
  description := orDefault r.fields.description ""
  category := mapCategory r.fields.category
  minLevel := numOr r.fields.minLevel 1
  imageUrl := orDefault r.fields.imageUrl (getFromAttachments r.fields.image)
  videoUrl := orDefault r.fields.videoUrl (getFromAttachments r.fields.video)
  pdfUrl := ""
  lessons := resolveModuleLessons lrs lmap r

/-- The `modulesResponse.records.forEach` loop of `fetchModules`
(lines 151-204) with its `modules` output array and `seenTitles` set made
explicit: a built module is pushed only when its title has not been seen. -/
def fetchModulesGo (lrs : List LessonRecord) (lmap : String → List Lesson) :
    List ModuleRecord → List CourseModule → List String → List CourseModule
  | [], acc, _ => acc
  | r :: rs, acc, seen =>
    let m := assembleModule lrs lmap r
    if seen.contains m.title then fetchModulesGo lrs lmap rs acc seen
    else fetchModulesGo lrs lmap rs (acc ++ [m]) (seen ++ [m.title])

/-- The successful-response body of `fetchModules` (lines 118-207), applied to
the two parsed row sets. -/
def fetchModulesRows (mrs : List ModuleRecord) (lrs : List LessonRecord) :
    List CourseModule :=
  fetchModulesGo lrs (buildLessonsMap lrs) mrs [] []

/-- `fetchModules` (lines 103-213) with the two parallel requests modelled by
their outcomes; any thrown request failure reaches the surrounding catch and
yields `[]`. -/
def fetchModules (mods : Except Unit (List ModuleRecord))
    (lessons : Except Unit (List LessonRecord)) : List CourseModule :=
  match mods, lessons with
  | .ok mrs, .ok lrs => fetchModulesRows mrs lrs
  | _, _ => []

/-- `fetchLessons` (lines 216-239). -/
def fetchLessons (resp : Except Unit (List LessonRecord)) : List Lesson :=
  match resp with
  | .error _ => []
  | .ok rs => rs.map (fun r => toLessonShort r.recId r.fields)

/-- The `fields` object of one Airtable material row. -/
structure MaterialFields where
  id : Option String
  title : Option String
  description : Option String
  type : Option String
  url : Option String
  deriving DecidableEq, Repr

/-- One Airtable material row. -/
structure MaterialRecord where
  recId : String
  fields : MaterialFields
  deriving DecidableEq, Repr

/-- `fetchMaterials` (lines 242-256). -/
def fetchMaterials (resp : Except Unit (List MaterialRecord)) : List Material :=
  match resp with
  | .error _ => []
  | .ok rs =>
      rs.map (fun r =>
        { id := orDefault r.fields.id r.recId
          title := orDefault r.fields.title ""
          description := orDefault r.fields.description ""
          type := orDefault r.fields.type "LINK"
          url := orDefault r.fields.url "" })

/-- The `fields` object of one Airtable stream row. -/
structure StreamFields where
  id : Option String
  title : Option String
  date : Option String
  youtubeUrl : Option String
  status : Option String
  deriving DecidableEq, Repr

/-- One Airtable stream row. -/
structure StreamRecord where
  recId : String
  fields : StreamFields
  deriving DecidableEq, Repr

/-- `fetchStreams` (lines 259-273); `nowIso` stands for
`new Date().toISOString()`, the default date. -/
def fetchStreams (nowIso : String) (resp : Except Unit (List StreamRecord)) :
    List StreamItem :=
  match resp with
  | .error _ => []
  | .ok rs =>
      rs.map (fun r =>
        { id := orDefault r.fields.id r.recId
          title := orDefault r.fields.title ""
          date := orDefault r.fields.date nowIso
          youtubeUrl := orDefault r.fields.youtubeUrl ""
          status := orDefault r.fields.status "UPCOMING" })

/-- `syncUserProgress` (lines 276-329).  `check` is the outcome of the
existence lookup, `writeOutcome` the outcome of the subsequent PATCH (update)
or POST (create); either failure is caught and turned into `false`.  The
`records` list decides which of the two writes is issued. -/
def syncUserProgress (check : Except Unit (List String))
    (writeOutcome : Except Unit Unit) (u : UserProgress) : Bool :=
  let telegramId := jsOrS u.telegramId (jsOrS u.id "")
  if telegramId = "" then false
  else
    match check with
    | .error _ => false
    | .ok records =>
        match records, writeOutcome with
        | _ :: _, .ok _ => true
        | [], .ok _ => true
        | _, .error _ => false

/-- The parsed `Data` JSON blob of a remote user row (loadUserProgress
lines 342, 352-364); each key may be absent. -/
structure ParsedUserData where
  completedLessonIds : Option (List String)
  submittedHomeworks : Option (List String)
  chatHistory : Option (List String)
  notebook : Option (List String)
  habits : Option (List String)
  goals : Option (List String)
  theme : Option String
  notifications : Option NotificationPrefs
  deriving DecidableEq, Repr

instance {ε α : Type} [DecidableEq ε] [DecidableEq α] :
    DecidableEq (Except ε α) := fun a b =>
  match a, b with
  | .ok x, .ok y =>
      if h : x = y then .isTrue (by rw [h]) else .isFalse (by simp [h])
  | .error x, .error y =>
      if h : x = y then .isTrue (by rw [h]) else .isFalse (by simp [h])
  | .ok _, .error _ => .isFalse (by simp)
  | .error _, .ok _ => .isFalse (by simp)

/-- The `fields` of one remote user row; `Data` is `none` when the field is
absent, `some (.error ())` when present but unparseable (JSON.parse throws),
`some (.ok d)` when parsed. -/
structure UserRowFields where
  TelegramId : String
  Name : Option String
  Role : Option String
  XP : Option Int
  Level : Option Int
  Data : Option (Except Unit ParsedUserData)
  LastSync : Option Int
  deriving DecidableEq, Repr

/-- One remote user row. -/
structure UserRow where
  recId : String
  createdTime : String
  fields : UserRowFields
  deriving DecidableEq, Repr

/-- `loadUserProgress` (lines 332-373); `now` stands for `Date.now()`, the
default LastSync.  A thrown request failure or a JSON.parse throw reaches the
catch and yields `none`; an empty find result yields `none`. -/
def loadUserProgress (now : Int) (resp : Except Unit (List UserRow)) :
    Option UserProgress :=
  match resp with
  | .error _ => none
  | .ok [] => none
  | .ok (record :: _) =>
      let parsed : Except Unit ParsedUserData :=
        match record.fields.Data with
        | none => .ok ⟨none, none, none, none, none, none, none, none⟩
        | some r => r
      match parsed with
      | .error _ => none
      | .ok d =>
          some
            { id := record.fields.TelegramId
              telegramId := record.fields.TelegramId
              name := orDefault record.fields.Name "User"
              role := orDefault record.fields.Role "STUDENT"
              isAuthenticated := true
              xp := numOr record.fields.XP 0
              level := numOr record.fields.Level 1
              completedLessonIds := d.completedLessonIds.getD []
              submittedHomeworks := d.submittedHomeworks.getD []
              chatHistory := d.chatHistory.getD []
              notebook := d.notebook.getD []
              habits := d.habits.getD []
              goals := d.goals.getD []
              theme := orDefault d.theme "LIGHT"
              notifications := d.notifications.getD ⟨false, false, false, false⟩
              airtableRecordId := some record.recId
              lastSyncTimestamp := numOr record.fields.LastSync now
              registrationDate := record.createdTime }

/-! ### BackendService (src/services/backendService.ts) -/

/-- The reconciliation tolerance band.  Modelled from the spec: the divergent
constants observed across the logic's evolution are unified into one
parameter with default 2000 ms. -/
def TOLERANCE_MS : Int := 2000

/-- Modelled from the spec: the remote-side user reconciliation performed by
`airtable.syncUser`, which `BackendService.syncUser` awaits but which is
absent from the given sources (the airtableService on disk only has
`syncUserProgress`).  Following spec section 4.4: with the remote row absent
the local record is returned (a remote create is scheduled); with it present,
for delta = local.lastSyncTimestamp - remote.lastSyncTimestamp, a delta inside
the tolerance band keeps local, local strictly newer keeps local (scheduling a
background remote update), remote strictly newer returns the remote record;
the spec leaves the exact-boundary case to the synchronized (keep local)
disposition. -/
def airtableSyncUser (remote : Option UserProgress) (localUser : UserProgress) :
    UserProgress :=
  match remote with
  | none => localUser
  | some r =>
      let d : Int := localUser.lastSyncTimestamp - r.lastSyncTimestamp
      if d.natAbs < TOLERANCE_MS.natAbs then localUser
      else if d > TOLERANCE_MS then localUser
      else if d < -TOLERANCE_MS then r
      else localUser

/-- `updateLocalUserCache` (backendService.ts lines 98-105): overwrite the
`allUsers` entry whose telegramId matches, if one exists; otherwise the cache
is left untouched (no entry is created). -/
def updateLocalUserCache (u : UserProgress) (allUsers : List UserProgress) :
    List UserProgress :=
  match allUsers.findIdx? (fun x => x.telegramId = u.telegramId) with
  | some i => allUsers.set i u
  | none => allUsers

/-- The shared `allUsers` list update of both `saveUserLocal` variants
(backendService.ts lines 84-92, part_000 lines 59-63): replace the first
entry with the same telegramId, else push. -/
def upsertUser (u : UserProgress) (allUsers : List UserProgress) :
    List UserProgress :=
  match allUsers.findIdx? (fun x => x.telegramId = u.telegramId) with
  | some i => allUsers.set i u
  | none => allUsers ++ [u]

/-- `saveUserLocal` of src/services/backendService.ts (lines 83-96): updates
only the `allUsers` key (plus a SyncBus signal, which carries no state). -/
def bs_saveUserLocal (u : UserProgress) (s : LocalStore) : LocalStore :=
  { s with allUsers := upsertUser u s.allUsers }

/-- `saveUserLocal` of src/unnamed/part_000 (lines 57-66): additionally
writes the current-user `progress` key. -/
def p000_saveUserLocal (u : UserProgress) (s : LocalStore) : LocalStore :=
  { s with progress := some u, allUsers := upsertUser u s.allUsers }

/-- `BackendService.syncUser` of src/services/backendService.ts (lines 46-65).
`remoteRow` is the outcome of the awaited `airtable.syncUser` call: `.error`
when it throws (the catch saves the local record locally and returns it),
`.ok remote` the remote row it reconciled against (see `airtableSyncUser`).
The returned record and the updated store are both produced. -/
def bsSyncUser (remoteRow : Except Unit (Option UserProgress))
    (localUser : UserProgress) (s : LocalStore) : UserProgress × LocalStore :=
  match remoteRow with
  | .error _ => (localUser, bs_saveUserLocal localUser s)
  | .ok remote =>
      let remoteUser := airtableSyncUser remote localUser
      if remoteUser.lastSyncTimestamp ≠ 0 ∧ localUser.lastSyncTimestamp ≠ 0 ∧
          remoteUser.lastSyncTimestamp > localUser.lastSyncTimestamp then
        (remoteUser, { s with allUsers := updateLocalUserCache remoteUser s.allUsers })
      else
        (localUser, s)

/-- The synchronous part of `saveUser` of src/services/backendService.ts
(lines 67-81): stamp `lastSyncTimestamp := now`, then the optimistic local
write.  The detached remote propagation only rewrites the store when it
returns a changed remote-row linkage, so with no intervening remote change it
leaves the store untouched and is not part of the local state transition. -/
def bs_saveUser (now : Int) (u : UserProgress) (s : LocalStore) : LocalStore :=
  bs_saveUserLocal { u with lastSyncTimestamp := now } s

/-- The synchronous part of `saveUser` of src/unnamed/part_000 (lines 47-55). -/
def p000_saveUser (now : Int) (u : UserProgress) (s : LocalStore) : LocalStore :=
  p000_saveUserLocal { u with lastSyncTimestamp := now } s

/-- `getLeaderboard` of src/services/backendService.ts (lines 162-174).
`remote` is the outcome of `airtable.getAllUsers` (absent from the given
sources, modelled from the spec as an opaque full-list attempt): `none` when
the call throws, `some users` its result.  A non-empty result overwrites the
`allUsers` cache and is returned; otherwise the cached roster is returned. -/
def bs_getLeaderboard (remote : Option (List UserProgress)) (s : LocalStore) :
    List UserProgress × LocalStore :=
  match remote with
  | some users =>
      if users.length > 0 then (users, { s with allUsers := users })
      else (s.allUsers, s)
  | none => (s.allUsers, s)

/-- `getLeaderboard` of src/unnamed/part_000 (lines 174-176): only the cached
roster read. -/
def p000_getLeaderboard (s : LocalStore) : List UserProgress :=
  s.allUsers

/-- The content bundle returned by `fetchAllContent`. -/
structure Content where
  modules : List CourseModule
  materials : List Material
  streams : List StreamItem
  events : List CalendarEvent
  scenarios : List ArenaScenario
  deriving DecidableEq, Repr

/-- `fetchAllContent` of src/unnamed/part_000 (lines 87-135): the three
parallel airtable fetches never throw (each already degrades to `[]`, see
`fetchModules` and friends), so their results arrive as plain lists; a
non-empty remote result wins, else the local snapshot, else the built-in
default; all five chosen collections are then cached back into the store. -/
def p000_fetchAllContent (d : BuiltinDefaults)
    (mods : List CourseModule) (mats : List Material) (strs : List StreamItem)
    (s : LocalStore) : Content × LocalStore :=
  let modules := if mods.length > 0 then mods else s.courseModules.getD d.COURSE_MODULES
  let materials := if mats.length > 0 then mats else s.materials.getD d.MOCK_MATERIALS
  let streams := if strs.length > 0 then strs else s.streams.getD d.MOCK_STREAMS
  let events := s.events.getD d.MOCK_EVENTS
  let scenarios := s.scenarios.getD d.SCENARIOS
  (⟨modules, materials, streams, events, scenarios⟩,
    { s with
        courseModules := some modules
        materials := some materials
        streams := some streams
        events := some events
        scenarios := some scenarios })

/-- `fetchAllContent` of src/services/backendService.ts (lines 121-129): the
pure local tier (snapshot else built-in default) of the chain. -/
def bs_fetchAllContent (d : BuiltinDefaults) (s : LocalStore) : Content :=
  ⟨s.courseModules.getD d.COURSE_MODULES,
    s.materials.getD d.MOCK_MATERIALS,
    s.streams.getD d.MOCK_STREAMS,
    s.events.getD d.MOCK_EVENTS,
    s.scenarios.getD d.SCENARIOS⟩

/-- The reference deduplication used to characterize the `seenTitles` loop of
`fetchModules`: keep each module and drop every later module carrying the
same title. -/
def dedupByTitleSpec : List CourseModule → List CourseModule
  | [] => []
  | m :: ms =>
      m :: dedupByTitleSpec (ms.filter (fun x => x.title ≠ m.title))
termination_by l => l.length
decreasing_by
  simp only [List.length_cons]
  exact Nat.lt_succ_of_le (List.length_filter_le _ _)

/-! ### Equality up to the last-sync stamp (for the idempotence claim) -/

/-- Two user records equal in every field except possibly
`lastSyncTimestamp`. -/
def eqExceptTs (a b : UserProgress) : Prop :=
  { a with lastSyncTimestamp := 0 } = { b with lastSyncTimestamp := 0 }

/-- Two rosters equal entry-by-entry, where the entries of the user with
external id `tid` may differ in their `lastSyncTimestamp` field only. -/
def rosterEqExceptTsFor (tid : String) (l1 l2 : List UserProgress) : Prop :=
  List.Forall₂
    (fun a b => a = b ∨ (a.telegramId = tid ∧ b.telegramId = tid ∧ eqExceptTs a b))
    l1 l2

/-- The same relation on the optional current-user `progress` entry. -/
def optEqExceptTs : Option UserProgress → Option UserProgress → Prop
  | none, none => True
  | some a, some b => eqExceptTs a b
  | _, _ => False

/-- Two stores whose contents agree everywhere except that the entries of
user `tid` (in the roster and in the `progress` key) may differ in their
`lastSyncTimestamp` field. -/
def storeEqExceptTsFor (tid : String) (s1 s2 : LocalStore) : Prop :=
  rosterEqExceptTsFor tid s1.allUsers s2.allUsers ∧
  optEqExceptTs s1.progress s2.progress ∧
  s1.courseModules = s2.courseModules ∧
  s1.materials = s2.materials ∧
  s1.streams = s2.streams ∧
  s1.events = s2.events ∧
  s1.scenarios = s2.scenarios

/-! ### Concrete sample data for witnesses and counterexamples -/

/-- A user record with the given external id and last-sync stamp and default
payload fields. -/
def mkUser (tid : String) (ts : Int) : UserProgress where
  id := tid
  telegramId := tid
  name := "U"
  role := "STUDENT"
  isAuthenticated := true
  xp := 0
  level := 1
  completedLessonIds := []
  submittedHomeworks := []
  chatHistory := []
  notebook := []
  habits := []
  goals := []
  theme := "LIGHT"
  notifications := ⟨false, false, false, false⟩
  airtableRecordId := none
  lastSyncTimestamp := ts
  registrationDate := ""

/-- A store with nothing in it. -/
def emptyStore : LocalStore :=
  ⟨none, [], none, none, none, none, none⟩

/-- Lesson row L1, linked to module row recM1 only. -/
def l1row : LessonRecord :=
  ⟨"recL1", ⟨some "L1", some "Lesson One", none, none, none, none, none, none,
    none, ["recM1"]⟩⟩

/-- Lesson row L2, linked to module rows recM1 and recM2. -/
def l2row : LessonRecord :=
  ⟨"recL2", ⟨some "L2", some "Lesson Two", none, none, none, none, none, none,
    none, ["recM1", "recM2"]⟩⟩

/-- Module row M1. -/
def m1row : ModuleRecord :=
  ⟨"recM1", ⟨some "M1", some "Module One", none, none, none, none, none, [],
    none, none⟩⟩

/-- Module row M2. -/
def m2row : ModuleRecord :=
  ⟨"recM2", ⟨some "M2", some "Module Two", none, none, none, none, none, [],
    none, none⟩⟩

/-- A zero-lesson module row titled Alpha. -/
def dupAlphaRow1 : ModuleRecord :=
  ⟨"recA1", ⟨some "A1", some "Alpha", none, none, none, none, none, [],
    none, none⟩⟩

/-- A second module row also titled Alpha, which has one linked lesson. -/
def dupAlphaRow2 : ModuleRecord :=
  ⟨"recA2", ⟨some "A2", some "Alpha", none, none, none, none, none, [],
    none, none⟩⟩

/-- The lesson row linked to the second Alpha module row. -/
def lxrow : LessonRecord :=
  ⟨"recLX", ⟨some "LX", some "Lesson X", none, none, none, none, none, none,
    none, ["recA2"]⟩⟩

/-- A sample assembled module for the built-in default set. -/
def sampleModule : CourseModule :=
  ⟨"m0", "Default Module", "", "GENERAL", 1, "", "", "", []⟩

/-- A built-in default set whose module collection is non-empty. -/
def sampleDefaults : BuiltinDefaults :=
  ⟨[sampleModule], [], [], [], []⟩

/-- A store holding an explicitly stored empty module snapshot. -/
def storeEmptySnapshot : LocalStore :=
  ⟨none, [], some [], none, none, none, none⟩

/-! ## Theorems -/

theorem syncUserProgress_check_error (w : Except Unit Unit) (u : UserProgress) :
    syncUserProgress (.error ()) w u = false := by
  by_cases h : jsOrS u.telegramId (jsOrS u.id "") = "" <;>
    simp [syncUserProgress, h]

theorem syncUserProgress_write_error (chk : Except Unit (List String))
    (u : UserProgress) : syncUserProgress chk (.error ()) u = false := by
  by_cases h : jsOrS u.telegramId (jsOrS u.id "") = ""
  · simp [syncUserProgress, h]
  · cases chk with
    | error e => simp [syncUserProgress, h]
    | ok records => cases records <;> simp [syncUserProgress, h]

/-- Claim C5: every public remote-client operation (fetchModules,
fetchLessons, fetchMaterials, fetchStreams, syncUserProgress,
loadUserProgress) absorbs a failing remote call and returns its empty or
absent fallback value ([], false, or null); in the embedding each operation
is a total function of the request outcome, so no exception escapes to
calling code. -/
theorem c5_remote_failures_absorbed :
    ∀ (lr : Except Unit (List LessonRecord))
      (mr : Except Unit (List ModuleRecord))
      (chk : Except Unit (List String)) (w : Except Unit Unit)
      (u : UserProgress) (nowIso : String) (now : Int),
      fetchModules (.error ()) lr = [] ∧
      fetchModules mr (.error ()) = [] ∧
      fetchLessons (.error ()) = [] ∧
      fetchMaterials (.error ()) = [] ∧
      fetchStreams nowIso (.error ()) = [] ∧
      syncUserProgress (.error ()) w u = false ∧
      syncUserProgress chk (.error ()) u = false ∧
      loadUserProgress now (.error ()) = none := by
  intro lr mr chk w u nowIso now
  refine ⟨?_, ?_, rfl, rfl, rfl, ?_, ?_, rfl⟩
  · cases lr <;> rfl
  · cases mr <;> rfl
  · exact syncUserProgress_check_error w u
  · exact syncUserProgress_write_error chk u

/-- Claim C7: `getLeaderboard` attempts the full remote list first; a
non-empty remote result overwrites the `allUsers` roster cache and is
returned, while a thrown remote failure or an empty remote result leaves the
store untouched and returns the last cached roster. -/
theorem c7_getLeaderboard_chain :
    ∀ (s : LocalStore) (users : List UserProgress),
      (users ≠ [] →
        bs_getLeaderboard (some users) s = (users, { s with allUsers := users })) ∧
      bs_getLeaderboard (some []) s = (s.allUsers, s) ∧
      bs_getLeaderboard none s = (s.allUsers, s) := by
  intro s users
  refine ⟨?_, rfl, rfl⟩
  intro h
  have hlen : users.length > 0 := List.length_pos.mpr h
  simp [bs_getLeaderboard, hlen]

/-- Witness for C7 at a concrete non-empty remote result. -/
theorem c7_witness :
    bs_getLeaderboard (some [mkUser "w7" 1]) emptyStore =
      ([mkUser "w7" 1], { emptyStore with allUsers := [mkUser "w7" 1] }) :=
  (c7_getLeaderboard_chain emptyStore [mkUser "w7" 1]).1 (List.cons_ne_nil _ _)

/-- Counterexample for C10: on an empty store the two observed
`saveUserLocal` implementations do not leave the LocalStore in the same
state; the part_000 variant writes the `progress` key, the
backendService.ts variant does not. -/
theorem c10_counterexample :
    p000_saveUserLocal (mkUser "c10" 5) emptyStore ≠
      bs_saveUserLocal (mkUser "c10" 5) emptyStore := by
  intro h
  have hp : (p000_saveUserLocal (mkUser "c10" 5) emptyStore).progress =
      (bs_saveUserLocal (mkUser "c10" 5) emptyStore).progress := by rw [h]
  simp [p000_saveUserLocal, bs_saveUserLocal, emptyStore] at hp

/-- Claim C10 (amended): the two `saveUserLocal` implementations compute the
identical `allUsers` roster update, but part_000 additionally writes the
current-user `progress` key (set to the saved record) while
backendService.ts leaves `progress` untouched, so the written key sets
differ. -/
theorem c10_amended_saveUserLocal :
    ∀ (u : UserProgress) (s : LocalStore),
      (bs_saveUserLocal u s).allUsers = (p000_saveUserLocal u s).allUsers ∧
      (p000_saveUserLocal u s).progress = some u ∧
      (bs_saveUserLocal u s).progress = s.progress := by
  intro u s
  exact ⟨rfl, rfl, rfl⟩

theorem airtableSyncUser_inside_tolerance (l r : UserProgress)
    (h : (l.lastSyncTimestamp - r.lastSyncTimestamp).natAbs ≤ 2000) :
    airtableSyncUser (some r) l = l := by
  unfold airtableSyncUser TOLERANCE_MS
  dsimp only
  split_ifs <;> first | rfl | (exfalso; omega)

theorem airtableSyncUser_remote_newer (l r : UserProgress)
    (h : l.lastSyncTimestamp - r.lastSyncTimestamp < -TOLERANCE_MS) :
    airtableSyncUser (some r) l = r := by
  unfold airtableSyncUser TOLERANCE_MS
  unfold TOLERANCE_MS at h
  dsimp only
  split_ifs <;> first | rfl | (exfalso; omega)

/-- Counterexample for C1: with local lastSyncTimestamp 0 and remote
lastSyncTimestamp 10000 (remote newer by 10000 ms, far beyond the
tolerance), `BackendService.syncUser` returns the local record, not the
remote one: the JS truthiness guard on `localUser.lastSyncTimestamp` fails
on 0. -/
theorem c1_counterexample :
    (bsSyncUser (.ok (some (mkUser "c1" 10000))) (mkUser "c1" 0) emptyStore).1 =
      mkUser "c1" 0 ∧
    mkUser "c1" 0 ≠ mkUser "c1" 10000 := by
  constructor
  · decide
  · decide

/-- Claim C1 (amended): whenever the remote record's lastSyncTimestamp
differs from the local one by at most the 2000 ms tolerance,
`BackendService.syncUser` returns the local record and leaves the store
untouched (in particular local T, remote T+500); and with remote
lastSyncTimestamp T+10000 it returns the remote record provided the local
timestamp T is positive (with T = 0 the falsy-timestamp guard keeps the
local record, see the counterexample). -/
theorem c1_amended_tolerance_band :
    ∀ (s : LocalStore) (l r : UserProgress),
      ((l.lastSyncTimestamp - r.lastSyncTimestamp).natAbs ≤ 2000 →
        bsSyncUser (.ok (some r)) l s = (l, s)) ∧
      (0 < l.lastSyncTimestamp →
        r.lastSyncTimestamp = l.lastSyncTimestamp + 10000 →
        (bsSyncUser (.ok (some r)) l s).1 = r) := by
  intro s l r
  constructor
  · intro h
    have hau := airtableSyncUser_inside_tolerance l r h
    have hstep : bsSyncUser (.ok (some r)) l s =
        (if l.lastSyncTimestamp ≠ 0 ∧ l.lastSyncTimestamp ≠ 0 ∧
            l.lastSyncTimestamp > l.lastSyncTimestamp then
          (l, { s with allUsers := updateLocalUserCache l s.allUsers })
        else (l, s)) := by
      simp only [bsSyncUser, hau]
    rw [hstep, if_neg]
    intro hcon
    exact absurd hcon.2.2 (lt_irrefl _)
  · intro h0 hr
    have hau : airtableSyncUser (some r) l = r := by
      apply airtableSyncUser_remote_newer
      unfold TOLERANCE_MS
      omega
    have hstep : bsSyncUser (.ok (some r)) l s =
        (if r.lastSyncTimestamp ≠ 0 ∧ l.lastSyncTimestamp ≠ 0 ∧
            r.lastSyncTimestamp > l.lastSyncTimestamp then
          (r, { s with allUsers := updateLocalUserCache r s.allUsers })
        else (l, s)) := by
      simp only [bsSyncUser, hau]
    rw [hstep, if_pos ⟨by omega, by omega, by omega⟩]

/-- Witness for C1 (amended) at local T = 10000: remote T+500 keeps local,
remote T+10000 returns remote. -/
theorem c1_witness :
    bsSyncUser (.ok (some (mkUser "c1w" 10500))) (mkUser "c1w" 10000) emptyStore =
      (mkUser "c1w" 10000, emptyStore) ∧
    (bsSyncUser (.ok (some (mkUser "c1w" 20000))) (mkUser "c1w" 10000)
        emptyStore).1 = mkUser "c1w" 20000 := by
  constructor
  · exact (c1_amended_tolerance_band emptyStore (mkUser "c1w" 10000)
      (mkUser "c1w" 10500)).1 (by decide)
  · exact (c1_amended_tolerance_band emptyStore (mkUser "c1w" 10000)
      (mkUser "c1w" 20000)).2 (by decide) (by decide)

/-- Counterexample for C2: (a) with the local timestamp 0 (the value the
claim assigns to an absent local record) and remote timestamp 10000, the
remote record does not win — `syncUser` returns the local record; (b) with a
positive local timestamp but no existing `allUsers` entry for the id, the
returned record is the remote one yet the cache is left without any entry
(nothing is overwritten or inserted). -/
theorem c2_counterexample :
    ((bsSyncUser (.ok (some (mkUser "c2" 10000))) (mkUser "c2" 0) emptyStore).1 =
        mkUser "c2" 0 ∧
      mkUser "c2" 0 ≠ mkUser "c2" 10000) ∧
    (bsSyncUser (.ok (some (mkUser "c2b" 10000))) (mkUser "c2b" 1000)
        emptyStore).2.allUsers = [] := by
  refine ⟨⟨by decide, by decide⟩, by decide⟩

/-- Claim C2 (amended): when a remote record strictly newer than the local
one beyond the tolerance arrives and the local record carries a positive
lastSyncTimestamp, `syncUser` returns the remote record and rewrites the
`allUsers` cache through `updateLocalUserCache`, which overwrites the entry
with the matching telegramId when one exists and otherwise leaves the cache
unchanged (no entry is created); with the local timestamp 0 (absent) the
local record is returned instead. -/
theorem c2_amended_remote_wins :
    ∀ (s : LocalStore) (l r : UserProgress),
      0 < l.lastSyncTimestamp →
      l.lastSyncTimestamp - r.lastSyncTimestamp < -TOLERANCE_MS →
      (bsSyncUser (.ok (some r)) l s).1 = r ∧
      (bsSyncUser (.ok (some r)) l s).2 =
        { s with allUsers := updateLocalUserCache r s.allUsers } ∧
      (s.allUsers.findIdx? (fun x => x.telegramId = r.telegramId) = none →
        (bsSyncUser (.ok (some r)) l s).2 = s) := by
  intro s l r h0 hd
  have hau := airtableSyncUser_remote_newer l r hd
  have htol : (TOLERANCE_MS : Int) = 2000 := rfl
  have hstep : bsSyncUser (.ok (some r)) l s =
      (if r.lastSyncTimestamp ≠ 0 ∧ l.lastSyncTimestamp ≠ 0 ∧
          r.lastSyncTimestamp > l.lastSyncTimestamp then
        (r, { s with allUsers := updateLocalUserCache r s.allUsers })
      else (l, s)) := by
    simp only [bsSyncUser, hau]
  rw [hstep, if_pos ⟨by omega, by omega, by omega⟩]
  refine ⟨rfl, rfl, ?_⟩
  intro hnone
  have hcache : updateLocalUserCache r s.allUsers = s.allUsers := by
    unfold updateLocalUserCache
    rw [hnone]
  rw [hcache]

/-- Witness for C2 (amended): a concrete store whose cache holds an entry
for the id; the remote record wins and overwrites it. -/
theorem c2_witness :
    (bsSyncUser (.ok (some (mkUser "c2w" 9999))) (mkUser "c2w" 1000)
        { emptyStore with allUsers := [mkUser "c2w" 500] }).1 =
      mkUser "c2w" 9999 ∧
    (bsSyncUser (.ok (some (mkUser "c2w" 9999))) (mkUser "c2w" 1000)
        { emptyStore with allUsers := [mkUser "c2w" 500] }).2 =
      { emptyStore with
          allUsers := (updateLocalUserCache (mkUser "c2w" 9999) [mkUser "c2w" 500]) } := by
  have h := c2_amended_remote_wins
    { emptyStore with allUsers := [mkUser "c2w" 500] }
    (mkUser "c2w" 1000) (mkUser "c2w" 9999) (by decide) (by decide)
  exact ⟨h.1, h.2.1⟩

/-- Counterexample for C6: with the remote module tier returning zero rows
and an explicitly stored empty local snapshot, `fetchAllContent` returns an
empty module list even though the non-empty built-in default tier exists. -/
theorem c6_counterexample :
    (p000_fetchAllContent sampleDefaults [] [] [] storeEmptySnapshot).1.modules = [] ∧
    sampleDefaults.COURSE_MODULES ≠ [] := by
  exact ⟨by decide, by decide⟩

/-- Claim C6 (amended): `fetchAllContent` (part_000) follows the three-tier
chain — a non-empty remote result is cached and returned; with zero remote
rows the stored snapshot is returned whenever present, even when it is the
empty list; the built-in default set is returned only when no snapshot
exists — so the result is non-empty whenever the remote tier is non-empty or
every stored snapshot consulted is non-empty and the built-in default set is
non-empty (an explicitly stored empty snapshot does yield an empty result,
see the counterexample). -/
theorem c6_amended_three_tier_chain :
    ∀ (d : BuiltinDefaults) (mods : List CourseModule) (mats : List Material)
      (strs : List StreamItem) (s : LocalStore),
      (mods ≠ [] →
        (p000_fetchAllContent d mods mats strs s).1.modules = mods ∧
        (p000_fetchAllContent d mods mats strs s).2.courseModules = some mods) ∧
      (mods = [] →
        (p000_fetchAllContent d mods mats strs s).1.modules =
          s.courseModules.getD d.COURSE_MODULES) ∧
      (mods = [] → s.courseModules = none →
        (p000_fetchAllContent d mods mats strs s).1.modules = d.COURSE_MODULES) ∧
      ((∀ ms, s.courseModules = some ms → ms ≠ []) → d.COURSE_MODULES ≠ [] →
        (p000_fetchAllContent d mods mats strs s).1.modules ≠ []) := by
  intro d mods mats strs s
  refine ⟨?_, ?_, ?_, ?_⟩
  · intro h
    have hlen : mods.length > 0 := List.length_pos.mpr h
    constructor <;> simp [p000_fetchAllContent, hlen]
  · intro h
    subst h
    simp [p000_fetchAllContent]
  · intro h hs
    subst h
    simp [p000_fetchAllContent, hs]
  · intro hsnap hdef
    by_cases h : mods = []
    · subst h
      simp only [p000_fetchAllContent, List.length_nil, gt_iff_lt,
        lt_irrefl, if_false]
      cases hs : s.courseModules with
      | none => simpa [hs] using hdef
      | some ms => simpa [hs] using hsnap ms hs
    · have hlen : mods.length > 0 := List.length_pos.mpr h
      simp [p000_fetchAllContent, hlen, h]

/-- Witness for C6 (amended): remote empty and no snapshot falls through to
the built-in default set. -/
theorem c6_witness :
    (p000_fetchAllContent sampleDefaults [] [] [] emptyStore).1.modules =
      sampleDefaults.COURSE_MODULES :=
  (c6_amended_three_tier_chain sampleDefaults [] [] [] emptyStore).2.2.1 rfl rfl

theorem upsertUser_nil (u : UserProgress) : upsertUser u [] = [u] := by
  simp [upsertUser, List.findIdx?_nil]

theorem upsertUser_cons (u x : UserProgress) (xs : List UserProgress) :
    upsertUser u (x :: xs) =
      if x.telegramId = u.telegramId then u :: xs
      else x :: upsertUser u xs := by
  unfold upsertUser
  rw [List.findIdx?_cons]
  by_cases h : x.telegramId = u.telegramId
  · simp [h]
  · rw [if_neg (by simpa using h), if_neg h, List.findIdx?_succ]
    cases hfi : List.findIdx? (fun y => y.telegramId = u.telegramId) xs with
    | none => simp [hfi]
    | some i => simp [hfi, List.set_cons_succ]

theorem rosterRel_refl (tid : String) (l : List UserProgress) :
    rosterEqExceptTsFor tid l l :=
  List.forall₂_same.mpr (fun _ _ => Or.inl rfl)

theorem optEqExceptTs_refl (o : Option UserProgress) : optEqExceptTs o o := by
  cases o with
  | none => trivial
  | some a => exact rfl

theorem upsert_upsert_roster (tid : String) (v w : UserProgress)
    (hv : v.telegramId = tid) (hw : w.telegramId = tid) (hvw : eqExceptTs w v)
    (l : List UserProgress) :
    rosterEqExceptTsFor tid (upsertUser w (upsertUser v l)) (upsertUser v l) := by
  induction l with
  | nil =>
      rw [upsertUser_nil, upsertUser_cons, if_pos (hv.trans hw.symm)]
      exact List.Forall₂.cons (Or.inr ⟨hw, hv, hvw⟩) List.Forall₂.nil
  | cons x xs ih =>
      by_cases hx : x.telegramId = v.telegramId
      · rw [upsertUser_cons, if_pos hx, upsertUser_cons,
          if_pos (hv.trans hw.symm)]
        exact List.Forall₂.cons (Or.inr ⟨hw, hv, hvw⟩) (rosterRel_refl tid xs)
      · rw [upsertUser_cons, if_neg hx, upsertUser_cons,
          if_neg (fun hc => hx (hc.trans (hw.trans hv.symm)))]
        exact List.Forall₂.cons (Or.inl rfl) ih

/-- Claim C8: saving the same user record twice in a row (with no
intervening remote change) leaves the LocalStore contents equal except for
the lastSyncTimestamp field of that user's entries — for both observed
`saveUser` implementations (backendService.ts and part_000). -/
theorem c8_saveUser_idempotent_up_to_timestamp :
    ∀ (u : UserProgress) (s : LocalStore) (t1 t2 : Int),
      storeEqExceptTsFor u.telegramId
        (bs_saveUser t2 u (bs_saveUser t1 u s)) (bs_saveUser t1 u s) ∧
      storeEqExceptTsFor u.telegramId
        (p000_saveUser t2 u (p000_saveUser t1 u s)) (p000_saveUser t1 u s) := by
  intro u s t1 t2
  have hv : ({ u with lastSyncTimestamp := t1 } : UserProgress).telegramId =
      u.telegramId := rfl
  have hw : ({ u with lastSyncTimestamp := t2 } : UserProgress).telegramId =
      u.telegramId := rfl
  have hvw : eqExceptTs { u with lastSyncTimestamp := t2 }
      { u with lastSyncTimestamp := t1 } := rfl
  have hroster := upsert_upsert_roster u.telegramId _ _ hv hw hvw s.allUsers
  constructor
  · exact ⟨hroster, optEqExceptTs_refl s.progress, rfl, rfl, rfl, rfl, rfl⟩
  · exact ⟨hroster, hvw, rfl, rfl, rfl, rfl, rfl⟩

theorem lessonLinks_foldl (r : LessonRecord) (links : List String) :
    ∀ (m : String → List Lesson) (k : String),
      (links.foldl
        (fun m2 mid => fun q => if q = mid then m2 q ++ [toLesson r] else m2 q)
        m) k =
      m k ++ (links.filter (fun mid => k == mid)).map (fun _ => toLesson r) := by
  induction links with
  | nil =>
      intro m k
      simp
  | cons a as ih =>
      intro m k
      rw [List.foldl_cons, ih]
      by_cases h : k = a
      · subst h
        simp [List.filter_cons]
      · simp [List.filter_cons, h]

theorem buildLessonsMap_go (mid : String) (lrs : List LessonRecord) :
    ∀ m : String → List Lesson,
      (lrs.foldl
        (fun m r =>
          r.fields.moduleLinks.foldl
            (fun m2 q => fun k => if k = q then m2 k ++ [toLesson r] else m2 k)
            m)
        m) mid =
      m mid ++ lrs.flatMap
        (fun r => (r.fields.moduleLinks.filter (fun q => mid == q)).map
          (fun _ => toLesson r)) := by
  induction lrs with
  | nil =>
      intro m
      simp
  | cons r rs ih =>
      intro m
      rw [List.foldl_cons, ih, lessonLinks_foldl, List.flatMap_cons,
        List.append_assoc]

theorem buildLessonsMap_eq (lrs : List LessonRecord) (mid : String) :
    buildLessonsMap lrs mid =
      lrs.flatMap
        (fun r => (r.fields.moduleLinks.filter (fun q => mid == q)).map
          (fun _ => toLesson r)) := by
  unfold buildLessonsMap
  rw [buildLessonsMap_go]
  simp

theorem nodup_filter_beq (mid : String) (links : List String)
    (h : links.Nodup) :
    links.filter (fun q => mid == q) = if mid ∈ links then [mid] else [] := by
  induction links with
  | nil => simp
  | cons a as ih =>
      rw [List.filter_cons]
      by_cases hma : mid = a
      · subst hma
        have hnin : mid ∉ as := (List.nodup_cons.mp h).1
        have hfe : as.filter (fun q => mid == q) = [] := by
          rw [List.filter_eq_nil_iff]
          intro q hq
          simp only [beq_iff_eq]
          exact fun he => hnin (he ▸ hq)
        simp [hfe]
      · have hrec := ih (List.nodup_cons.mp h).2
        rw [if_neg (by simp [hma]), hrec]
        by_cases hmem : mid ∈ as
        · rw [if_pos hmem, if_pos (List.mem_cons_of_mem _ hmem)]
        · rw [if_neg hmem, if_neg (by simp [List.mem_cons, hma, hmem])]

/-- Claim C4: every lesson row is appended to the lesson bucket of every
module row id in its multi-valued module-link field (so, for duplicate-free
link lists, the bucket of a module row id is exactly the row-ordered list of
lessons linking to it); in particular, for lesson L1 linked to module M1 and
lesson L2 linked to M1 and M2, the assembled output has M1.lessons =
[L1, L2] and M2.lessons = [L2]. -/
theorem c4_lesson_fanout :
    (∀ (lrs : List LessonRecord) (mid : String),
      (∀ r ∈ lrs, r.fields.moduleLinks.Nodup) →
      buildLessonsMap lrs mid =
        (lrs.filter (fun r => decide (mid ∈ r.fields.moduleLinks))).map
          toLesson) ∧
    (fetchModulesRows [m1row, m2row] [l1row, l2row]).map
        (fun m => (m.title, m.lessons.map (fun l => l.id))) =
      [("Module One", ["L1", "L2"]), ("Module Two", ["L2"])] := by
  constructor
  · intro lrs mid h
    rw [buildLessonsMap_eq]
    induction lrs with
    | nil => simp
    | cons r rs ih =>
        have hrs := ih (fun x hx => h x (List.mem_cons_of_mem _ hx))
        rw [List.flatMap_cons, nodup_filter_beq mid _ (h r (by simp))]
        by_cases hm : mid ∈ r.fields.moduleLinks
        · rw [if_pos hm, List.filter_cons_of_pos (by simpa using hm)]
          simp only [List.map_cons, List.map_nil, List.singleton_append]
          rw [hrs]
        · rw [if_neg hm, List.filter_cons_of_neg (by simpa using hm)]
          simp only [List.map_nil, List.nil_append]
          rw [hrs]
  · decide

/-- Witness for C4 at the concrete two-lesson instance of the claim. -/
theorem c4_witness :
    buildLessonsMap [l1row, l2row] "recM1" =
      (([l1row, l2row].filter
        (fun r => decide ("recM1" ∈ r.fields.moduleLinks))).map toLesson) :=
  c4_lesson_fanout.1 [l1row, l2row] "recM1" (by decide)

theorem fetchModulesGo_eq (lrs : List LessonRecord)
    (lmap : String → List Lesson) :
    ∀ (rs : List ModuleRecord) (acc : List CourseModule) (seen : List String),
      fetchModulesGo lrs lmap rs acc seen =
        acc ++ dedupByTitleSpec
          ((rs.map (assembleModule lrs lmap)).filter
            (fun m => !(seen.contains m.title))) := by
  intro rs
  induction rs with
  | nil =>
      intro acc seen
      simp [fetchModulesGo, dedupByTitleSpec]
  | cons r rs ih =>
      intro acc seen
      simp only [fetchModulesGo]
      by_cases h : seen.contains (assembleModule lrs lmap r).title
      · rw [if_pos h, ih, List.map_cons,
          List.filter_cons_of_neg (by simpa using h)]
      · rw [if_neg h, ih, List.map_cons,
          List.filter_cons_of_pos (by simpa using h)]
        rw [dedupByTitleSpec]
        have hfilt :
            ((rs.map (assembleModule lrs lmap)).filter
                (fun m => !((seen ++ [(assembleModule lrs lmap r).title]).contains m.title))) =
              (((rs.map (assembleModule lrs lmap)).filter
                  (fun m => !(seen.contains m.title))).filter
                (fun x => x.title ≠ (assembleModule lrs lmap r).title)) := by
          rw [List.filter_filter]
          apply List.filter_congr
          intro a _
          simp [Bool.not_or, Bool.and_comm, Bool.beq_eq_decide_eq]
        rw [hfilt]
        simp

/-- Claim C3 (amended): the module assembly keeps exactly the first
occurrence of each title — `fetchModules` deduplicates purely by title, so a
later module row whose title duplicates an earlier row's is dropped even
when it has lessons (and the first occurrence is kept even with zero
lessons). -/
theorem c3_amended_dedup_purely_by_title :
    ∀ (mrs : List ModuleRecord) (lrs : List LessonRecord),
      fetchModulesRows mrs lrs =
        dedupByTitleSpec
          (mrs.map (assembleModule lrs (buildLessonsMap lrs))) := by
  intro mrs lrs
  unfold fetchModulesRows
  rw [fetchModulesGo_eq]
  simp

/-- Counterexample for C3: of two module rows sharing the title Alpha, the
second one has one linked lesson yet is dropped from the assembled output
(the claim requires every module with at least one lesson to be kept). -/
theorem c3_counterexample :
    (assembleModule [lxrow] (buildLessonsMap [lxrow]) dupAlphaRow2).lessons.length = 1 ∧
    assembleModule [lxrow] (buildLessonsMap [lxrow]) dupAlphaRow2 ∉
      fetchModulesRows [dupAlphaRow1, dupAlphaRow2] [lxrow] := by
  constructor
  · decide
  · decide

end SalesPro
